import Mathlib

/-!
Shallow embedding of libavfilter/dnn/dnn_backend_native.c (the FFmpeg DNN
"native" backend with a pooled-request execution scheduler), together with
theorems checking the natural-language specification against the code.

Modelling conventions:
  * machine integers are `Int` (signed) or `Nat` (unsigned); where the C code
    can overflow, the wraparound is written explicitly with `% 2^w`;
  * the model file is a `List Nat` of byte values; `avio` reads past the end
    of the file yield 0 bytes, as the real avio layer does on EOF;
  * heap pointers are modelled by values (requests carry a numeric `id`
    standing for their address; tasks live in an append-only store indexed by
    position, and queues hold indices into that store);
  * external collaborators that are out of scope per the specification
    (per-layer kernels, the async executor thread, frame pre/post-processing,
    allocation success) are modelled by an `Oracle` of outcomes threaded
    through the functions that call them.
-/

namespace DnnNative

/-! ### Error codes and enum constants (from dnn_interface.h / error.h) -/

/-- DNN_SUCCESS, from dnn_interface.h. -/
def DNN_SUCCESS : Int := 0

/-- DNN_GENERIC_ERROR = FFERRTAG('D','N','N','!'), from dnn_interface.h. -/
def DNN_GENERIC_ERROR : Int := -558779972

/-- AVERROR(EINVAL) on a standard errno layout. -/
def AVERROR_EINVAL : Int := -22

/-- AVERROR(ENOMEM) on a standard errno layout. -/
def AVERROR_ENOMEM : Int := -12

/-- AVERROR(ENOSYS) on a standard errno layout. -/
def AVERROR_ENOSYS : Int := -38

/-- INT32_MAX. -/
def INT32_MAX : Int := 2 ^ 31 - 1

/-- DOT_INPUT from dnn_backend_native.h (DNNOperandType). -/
def DOT_INPUT : Int := 1

/-- DOT_OUTPUT from dnn_backend_native.h (DNNOperandType). -/
def DOT_OUTPUT : Int := 2

/-- DLT_COUNT, number of layer types in the DNNLayerType enumeration of
dnn_backend_native.h (DLT_INPUT .. DLT_DENSE, then DLT_COUNT = 9). -/
def DLT_COUNT : Int := 9

/-! ### Byte-stream reading (avio model)

The file is a list of byte values.  `avio_r8` past EOF returns 0, so reads
are total; the logical position keeps advancing. -/

/-- Read one byte at `pos`; 0 past end of file (avio EOF behaviour). -/
def readByte (file : List Nat) (pos : Nat) : Nat := file.getD pos 0

/-- avio_rl32: little-endian unsigned 32-bit read at `pos`. -/
def rl32 (file : List Nat) (pos : Nat) : Nat :=
  readByte file pos + 256 * readByte file (pos + 1) +
    65536 * readByte file (pos + 2) + 16777216 * readByte file (pos + 3)

/-- Reinterpret an unsigned 32-bit value as int32_t (the cast
`(int32_t)avio_rl32(...)` in the source). -/
def i32ofU32 (x : Nat) : Int :=
  if x < 2 ^ 31 then (x : Int) else (x : Int) - 2 ^ 32

/-! ### Operands -/

/-- DnnOperand from dnn_backend_native.h, as used by this file.  The data
buffer contents are irrelevant to the properties at issue; `data` records
only whether a buffer is allocated and its byte size (`none` = NULL). -/
structure DnnOperand where
  name : String
  type : Int
  data_type : Int
  dims0 : Int
  dims1 : Int
  dims2 : Int
  dims3 : Int
  isNHWC : Int
  length : Int
  data : Option Int
  usedNumbersLeft : Int
  deriving Repr, DecidableEq

/-- A zero-initialised operand, as produced by av_mallocz of the operand
array in the loader (all fields zero / NULL / empty name). -/
def zeroOperand : DnnOperand :=
  ⟨"", 0, 0, 0, 0, 0, 0, 0, 0, none, 0⟩

/-- ff_calculate_operand_data_length: len starts at sizeof(float) = 4 in a
uint64_t, is multiplied by each of the four dims (each converted from
int32_t to uint64_t, i.e. taken mod 2^64), and after each multiplication is
checked against INT32_MAX; exceeding it returns 0.  The final uint64 value
fits int32_t, so the implicit return conversion is the identity. -/
def ff_calculate_operand_data_length (oprd : DnnOperand) : Int :=
  let len : Int := 4
  let len := len * (oprd.dims0 % 2 ^ 64) % 2 ^ 64
  if len > INT32_MAX then 0 else
  let len := len * (oprd.dims1 % 2 ^ 64) % 2 ^ 64
  if len > INT32_MAX then 0 else
  let len := len * (oprd.dims2 % 2 ^ 64) % 2 ^ 64
  if len > INT32_MAX then 0 else
  let len := len * (oprd.dims3 % 2 ^ 64) % 2 ^ 64
  if len > INT32_MAX then 0 else len

/-- Bytes consumed from the stream by avio_get_str(s, maxlen, buf, buflen):
it reads up to `maxlen` bytes, stopping immediately after the first NUL
byte; with `maxlen <= 0` nothing is read.  (The buffer capacity only limits
what is stored, not what is consumed.) -/
def getStrScan (file : List Nat) : Nat → Nat → Nat
  | 0, _ => 0
  | n + 1, p => if readByte file p = 0 then 1 else 1 + getStrScan file n (p + 1)

/-- Bytes consumed by avio_get_str with declared length `maxlen`. -/
def getStrConsumed (file : List Nat) (pos : Nat) (maxlen : Int) : Nat :=
  if maxlen ≤ 0 then 0 else getStrScan file maxlen.toNat pos

/-- The C string stored into oprd->name (capacity 128, so at most 127
characters plus the NUL): the bytes before the first NUL among the first
min(127, maxlen) bytes read. -/
def getStrName (file : List Nat) (pos : Nat) (maxlen : Int) : String :=
  if maxlen ≤ 0 then ""
  else
    String.mk ((((List.range (min 127 maxlen.toNat)).map
      (fun i => readByte file (pos + i))).takeWhile (fun b => b ≠ 0)).map Char.ofNat)

/-- Write to the operand store at a C int index.  An index in
[0, operands_num) lands in the array; the source's bounds check only
rejects indexes >= operands_num, so a negative index reaches the array
access, which in C is an out-of-bounds write (undefined behaviour).  The
model makes the out-of-bounds write a no-op on the store (List.set is the
identity past the end, and we skip negative indexes). -/
def setOperand (ops : List DnnOperand) (idx : Int) (v : DnnOperand) : List DnnOperand :=
  if 0 ≤ idx then ops.set idx.toNat v else ops

/-! ### Layers and the model -/

/-- Layer from dnn_backend_native.h.  The input/output operand indexes and
the params block are produced by the per-layer-type pf_load collaborators
(dnn_backend_native_layer_*.c, out of scope per the specification); only
the type code is needed for the properties at issue. -/
structure Layer where
  type : Int
  deriving Repr, DecidableEq

/-- TaskItem from dnn_backend_common.h.  Frames are modelled by their
dimensions (the only frame fields this file reads or writes).
inference_todo / inference_done are uint32_t counters. -/
structure TaskItem where
  input_name : String
  output_names : List String
  nb_output : Nat
  in_height : Int
  in_width : Int
  out_width : Int
  out_height : Int
  async : Bool
  do_ioproc : Bool
  inference_todo : Nat
  inference_done : Nat
  deriving Repr, DecidableEq

/-- NativeRequestItem from dnn_backend_native.c.  `id` models the pointer
identity of the heap-allocated item; `operands = none` models a freed
operands pointer; `lltask` holds the index of the owning task in the task
store (a LastLevelTaskItem is just a pointer to its TaskItem). -/
structure NativeRequestItem where
  id : Nat
  operands : Option (List DnnOperand)
  lltask : Option Nat
  deriving Repr, DecidableEq

/-- The immutable part of NativeModel built by the loader: layer list,
operand templates, counts, and the configured options. -/
structure NativeModel where
  layers_num : Int
  operands_num : Int
  layers : List Layer
  operands : List DnnOperand
  nireq : Int
  async_option : Bool
  deriving Repr, DecidableEq

/-- The mutable state reachable through a loaded model: the task store
(append-only heap of TaskItems, addressed by index), the task queue and
lltask queue (holding task-store indexes), the request pool
(request_queue, idle requests) and the set of requests currently checked
out to the asynchronous executor. -/
structure ModelState where
  model : NativeModel
  tasks : List TaskItem
  task_queue : List Nat
  lltask_queue : List Nat
  request_queue : List NativeRequestItem
  in_flight : List NativeRequestItem
  deriving Repr, DecidableEq

/-- copy_operands: clone of the template operand array for one request;
every field is copied, data is set to NULL. -/
def copy_operands (ops : List DnnOperand) : List DnnOperand :=
  ops.map fun src =>
    ⟨src.name, src.type, src.data_type, src.dims0, src.dims1, src.dims2,
     src.dims3, src.isNHWC, src.length, none, src.usedNumbersLeft⟩

/-! ### The model loader -/

/-- Outcomes of the external per-layer-type loaders
(ff_layer_funcs[layer_type].pf_load): given the layer type code and the
stream position, the number of bytes the collaborator reports having
parsed (0 on failure, as checked by the source) and the stream position
after it returns. -/
structure LoadOracle where
  pf_load : Int → Nat → Int × Nat

/-- The 15 magic bytes "FFMPEGDNNNATIVE". -/
def DNN_NATIVE_MAGIC : List Nat := "FFMPEGDNNNATIVE".data.map Char.toNat

/-- The layer-reading loop of ff_dnn_load_model_native (source lines
476-490): read the int32 type code, reject codes >= DLT_COUNT (the signed
comparison of the source: negative codes pass and reach the registry
lookup), call the registry pf_load, reject a zero parsed size, accumulate
dnn_size.  Layers are produced in file order. -/
def parseLayers (file : List Nat) (oracle : LoadOracle) :
    Nat → Nat → Int → List Layer → Option (Nat × Int × List Layer)
  | 0, pos, dnn_size, layers => some (pos, dnn_size, layers)
  | n + 1, pos, dnn_size, layers =>
    let layer_type := i32ofU32 (rl32 file pos)
    let pos := pos + 4
    let dnn_size := dnn_size + 4
    if layer_type ≥ DLT_COUNT then none
    else
      let r := oracle.pf_load layer_type pos
      if r.1 = 0 then none
      else parseLayers file oracle n r.2 (dnn_size + r.1) (layers ++ [⟨layer_type⟩])

/-- The operand-reading loop of ff_dnn_load_model_native (source lines
492-523): read the explicit destination index (rejecting only
operand_index >= operands_num, a signed comparison), the name length, the
name (dnn_size is advanced by the declared name_len, not by the bytes
actually consumed), the type, the data type and the four dims; reject a
DOT_INPUT operand whose dims[0] differs from 1; set isNHWC to 1 and store
the record at its destination index.  Fields the loader does not write
(length, data, usedNumbersLeft) keep the zero-initialised values of the
slot. -/
def parseOperands (file : List Nat) (operands_num : Int) :
    Nat → Nat → Int → List DnnOperand → Option (Nat × Int × List DnnOperand)
  | 0, pos, dnn_size, ops => some (pos, dnn_size, ops)
  | n + 1, pos, dnn_size, ops =>
    let operand_index := i32ofU32 (rl32 file pos)
    let pos := pos + 4
    let dnn_size := dnn_size + 4
    if operand_index ≥ operands_num then none
    else
      let name_len := i32ofU32 (rl32 file pos)
      let pos := pos + 4
      let dnn_size := dnn_size + 4
      let name := getStrName file pos name_len
      let pos := pos + getStrConsumed file pos name_len
      let dnn_size := dnn_size + name_len
      let ty := i32ofU32 (rl32 file pos)
      let pos := pos + 4
      let dnn_size := dnn_size + 4
      let data_type := i32ofU32 (rl32 file pos)
      let pos := pos + 4
      let dnn_size := dnn_size + 4
      let d0 := i32ofU32 (rl32 file pos)
      let d1 := i32ofU32 (rl32 file (pos + 4))
      let d2 := i32ofU32 (rl32 file (pos + 8))
      let d3 := i32ofU32 (rl32 file (pos + 12))
      let pos := pos + 16
      let dnn_size := dnn_size + 16
      if ty = DOT_INPUT ∧ d0 ≠ 1 then none
      else
        let oprd : DnnOperand := ⟨name, ty, data_type, d0, d1, d2, d3, 1, 0, none, 0⟩
        parseOperands file operands_num n pos dnn_size (setOperand ops operand_index oprd)

/-- The body of ff_dnn_load_model_native up to (but not including) the
final size check: header, tail-read counts, layer loop, operand loop and
request-pool pre-population.  Allocation of the fixed-size bookkeeping
structures and of the queues is modelled as succeeding (an OOM there is an
environment failure, not a property of the input); av_mallocz of the layer
and operand arrays fails for a negative count (the int32 count converts to
a huge size_t).  Returns the loaded state together with the final dnn_size
byte total. -/
def loadModelAux (file : List Nat) (oracle : LoadOracle) (nireq0 : Int)
    (cpu_count : Nat) (asyncOpt : Bool) : Option (ModelState × Int) :=
  let file_size := file.length
  if file_size < 15 then none
  else if (List.range 15).map (readByte file) ≠ DNN_NATIVE_MAGIC then none
  else
    let dnn_size : Int := 15
    let version := i32ofU32 (rl32 file 15)
    let dnn_size := dnn_size + 4
    if version ≠ 1 then none
    else
      let dnn_size := dnn_size + 4
      let header_size : Nat := 23
      let layers_num := i32ofU32 (rl32 file (file_size - 8))
      let operands_num := i32ofU32 (rl32 file (file_size - 4))
      let dnn_size := dnn_size + 8
      if layers_num < 0 then none
      else if operands_num < 0 then none
      else
        let nireq := if nireq0 ≤ 0 then (cpu_count / 2 + 1 : Int) else nireq0
        match parseLayers file oracle layers_num.toNat header_size dnn_size [] with
        | none => none
        | some (pos, dnn_size, layers) =>
          let ops0 := List.replicate operands_num.toNat zeroOperand
          match parseOperands file operands_num operands_num.toNat pos dnn_size ops0 with
          | none => none
          | some (_, dnn_size, operands) =>
            let nm : NativeModel :=
              ⟨layers_num, operands_num, layers, operands, nireq, asyncOpt⟩
            let pool := (List.range nireq.toNat).map
              (fun i => (⟨i, some (copy_operands operands), none⟩ : NativeRequestItem))
            some (⟨nm, [], [], [], pool, []⟩, dnn_size)

/-- ff_dnn_load_model_native: run the parse, then apply the final
integrity check of source lines 549-552 — if the accumulated dnn_size
differs from the file size, the whole model is freed and NULL is
returned. -/
def ff_dnn_load_model_native (file : List Nat) (oracle : LoadOracle) (nireq0 : Int)
    (cpu_count : Nat) (asyncOpt : Bool) : Option ModelState :=
  match loadModelAux file oracle nireq0 cpu_count asyncOpt with
  | none => none
  | some (st, dnn_size) => if dnn_size = (file.length : Int) then some st else none

/-! ### Runtime: submission, filling, execution, completion -/

/-- DNNExecBaseParams from dnn_interface.h: the caller-supplied submission
parameters (frames modelled by their dimensions). -/
structure DNNExecBaseParams where
  input_name : String
  output_names : List String
  nb_output : Nat
  in_height : Int
  in_width : Int
  out_height : Int
  out_width : Int
  deriving Repr, DecidableEq

/-- Placeholder TaskItem for out-of-store reads (never reached in the
modelled control flows: queue entries always index live tasks). -/
def dummyTask : TaskItem := ⟨"", [], 0, 0, 0, 0, 0, false, false, 0, 0⟩

/-- Outcomes of the external collaborators and of the allocations made
during submission and execution: av_malloc of the TaskItem, av_malloc of
the LastLevelTaskItem (or its queue push), av_malloc of the input data
buffer, the per-layer pf_exec executors (false = the first layer executor
reports an error), and whether ff_dnn_start_inference_async accepts the
work item.  Pushes onto the request/task queues are modelled as
succeeding. -/
structure ExecOracle where
  task_alloc_ok : Bool
  lltask_alloc_ok : Bool
  data_alloc_ok : Bool
  pf_exec_ok : Bool
  async_start_ok : Bool
  deriving Repr, DecidableEq

/-- Modelled from the spec: ff_check_exec_params (dnn_backend_common.c, not
under src/) validates the submission parameters before anything is
allocated; per §4.3 "validate that the Task requests exactly one output
(more than one is an unsupported-feature failure, no resources leaked)",
a nb_output other than 1 yields AVERROR(ENOSYS) after
avpriv_report_missing_feature.  Null-frame checks are not modelled
(frames are values here). -/
def ff_check_exec_params (p : DNNExecBaseParams) : Int :=
  if p.nb_output ≠ 1 then AVERROR_ENOSYS else 0

/-- Modelled from the spec: ff_dnn_fill_task (dnn_backend_common.c, not
under src/) copies the submission parameters into the freshly allocated
TaskItem and records the execution mode and do_ioproc flag; it always
succeeds.  The inference counters live in memory av_malloc left
uninitialised; the model takes them as 0, and every modelled read of them
happens after extract_lltask_from_task has set them. -/
def ff_dnn_fill_task (p : DNNExecBaseParams) (async : Bool) (do_ioproc : Bool) : TaskItem :=
  ⟨p.input_name, p.output_names, p.nb_output, p.in_height, p.in_width,
   p.out_width, p.out_height, async, do_ioproc, 0, 0⟩

/-- extract_lltask_from_task (source lines 158-178): allocate a
LastLevelTaskItem, set the task's inference_todo to 1 and inference_done
to 0, point the lltask at the task and push it onto the lltask queue.  A
failed allocation returns AVERROR(ENOMEM) and changes nothing. -/
def extract_lltask_from_task (st : ModelState) (taskIdx : Nat) (oracle : ExecOracle) :
    Int × ModelState :=
  if ¬ oracle.lltask_alloc_ok then (AVERROR_ENOMEM, st)
  else
    let task := st.tasks.getD taskIdx dummyTask
    let task' := { task with inference_todo := 1, inference_done := 0 }
    (DNN_SUCCESS, { st with tasks := st.tasks.set taskIdx task',
                            lltask_queue := st.lltask_queue ++ [taskIdx] })

/-- The in-place update fill_model_input_native performs on the input
operand before recomputing its length: spatial dims from the input
frame's height and width (oprd->dims[1], oprd->dims[2]), stale data
buffer freed (av_freep). -/
def withInputDims (o : DnnOperand) (h w : Int) : DnnOperand :=
  { o with dims1 := h, dims2 := w, data := none }

/-- The request-local part of fill_model_input_native (source lines
264-319), after the lltask has been popped and bound: locate the operand
named task->input_name among the request's operand clones (first name
match; a non-DOT_INPUT match is an error), set its spatial dims from the
input frame, free its stale data buffer, recompute its byte length
(rejecting a non-positive result before allocating), allocate the
buffer, run the input-conversion hook (which only writes buffer
contents, unmodelled), and finally reject tasks whose nb_output differs
from 1 with AVERROR(ENOSYS).  The model state is not touched in this
part; the updated request is returned. -/
def fill_model_input_core (model : NativeModel) (task : TaskItem)
    (request : NativeRequestItem) (oracle : ExecOracle) : Int × NativeRequestItem :=
  if ¬ (0 < model.layers_num ∧ 0 < model.operands_num) then
    (DNN_GENERIC_ERROR, request)
  else
    let ops := request.operands.getD []
    match ops.findIdx? (fun o => o.name = task.input_name) with
    | none => (AVERROR_EINVAL, request)
    | some i =>
      let oprd := ops.getD i zeroOperand
      if oprd.type ≠ DOT_INPUT then (DNN_GENERIC_ERROR, request)
      else
        let oprd := withInputDims oprd task.in_height task.in_width
        let oprd := { oprd with length := ff_calculate_operand_data_length oprd }
        let request := { request with operands := some (ops.set i oprd) }
        if oprd.length ≤ 0 then (AVERROR_EINVAL, request)
        else if ¬ oracle.data_alloc_ok then (AVERROR_ENOMEM, request)
        else
          let oprd := { oprd with data := some oprd.length }
          let request := { request with operands := some (ops.set i oprd) }
          if task.nb_output ≠ 1 then (AVERROR_ENOSYS, request)
          else (DNN_SUCCESS, request)

/-- fill_model_input_native (source lines 249-320): pop the head lltask
(an empty queue is AVERROR(EINVAL)), bind it to the request, then run
the request-local fill.  The lltask-queue pop is the only state
change. -/
def fill_model_input_native (st : ModelState) (request : NativeRequestItem)
    (oracle : ExecOracle) : Int × ModelState × NativeRequestItem :=
  match st.lltask_queue with
  | [] => (AVERROR_EINVAL, st, request)
  | lt :: rest =>
    let r := fill_model_input_core st.model (st.tasks.getD lt dummyTask)
      { request with lltask := some lt } oracle
    (r.1, { st with lltask_queue := rest }, r.2)

/-- native_start_inference (source lines 123-156): run every layer's
pf_exec over the request's operand clones in load order.  On the first
failing layer the operands array is freed (av_freep of the array, not of
the individual buffers) and the request is pushed back onto the request
queue, then the executor's nonzero code is returned (DNN_GENERIC_ERROR
stands in for it).  With no layers, or with all executors succeeding, the
request is left checked out and DNN_SUCCESS is returned. -/
def native_start_inference (st : ModelState) (request : NativeRequestItem)
    (oracle : ExecOracle) : Int × ModelState × NativeRequestItem :=
  if 0 < st.model.layers_num ∧ ¬ oracle.pf_exec_ok then
    let req := { request with operands := none }
    (DNN_GENERIC_ERROR, { st with request_queue := st.request_queue ++ [req] }, req)
  else (DNN_SUCCESS, st, request)

/-- The output-extraction loop of infer_completion_callback: for each
requested output name, find the matching operand among the request's
clones; a missing name aborts the loop (err path).  The accumulator is
the (width, height) the last iteration writes to the out frame in the
non-do_ioproc branch. -/
def callbackLoop (ops : List DnnOperand) :
    List String → Option (Int × Int) → Option (Option (Int × Int))
  | [], acc => some acc
  | n :: rest, _acc =>
    match ops.find? (fun o => o.name = n) with
    | none => none
    | some o => callbackLoop ops rest (some (o.dims2, o.dims1))

/-- infer_completion_callback (source lines 322-370): extract each of the
task's nb_output outputs from the request's operand clones (the
post-processing hook writes frame contents, unmodelled; without
do_ioproc the out frame's width/height are set from the operand); if all
outputs are found, increment the task's inference_done.  In every case
(err path included) the request is pushed back onto the request queue. -/
def infer_completion_callback (st : ModelState) (request : NativeRequestItem) : ModelState :=
  let lt := request.lltask.getD 0
  let task := st.tasks.getD lt dummyTask
  let ops := request.operands.getD []
  let names := (List.range task.nb_output).map (fun i => task.output_names.getD i "")
  match callbackLoop ops names none with
  | none =>
    { st with request_queue := st.request_queue ++ [request] }
  | some acc =>
    let task :=
      if task.do_ioproc then task
      else match acc with
           | none => task
           | some wh => { task with out_width := wh.1, out_height := wh.2 }
    let task := { task with inference_done := task.inference_done + 1 }
    { st with tasks := st.tasks.set lt task,
              request_queue := st.request_queue ++ [request] }

/-- execute_model_native (source lines 567-612): peek the head lltask (an
empty queue destroys the request outright), fill the request's input; on
a fill failure free the request's buffers and push it back.  Then either
hand the work to the async executor (the request stays checked out while
in flight) or run inference and the completion callback inline and
report DNN_SUCCESS exactly when the task's counters agree.  On an inline
inference failure the err label pushes the request back even though
native_start_inference has already pushed it, so the same request enters
the pool twice. -/
def execute_model_native (st : ModelState) (request : NativeRequestItem)
    (oracle : ExecOracle) : Int × ModelState :=
  match st.lltask_queue with
  | [] => (AVERROR_EINVAL, st)
  | lt :: _ =>
    let task0 := st.tasks.getD lt dummyTask
    let r := fill_model_input_native st request oracle
    let ret := r.1
    let st1 := r.2.1
    let request1 := r.2.2
    if ret ≠ DNN_SUCCESS then
      let req := { request1 with operands := none }
      (ret, { st1 with request_queue := st1.request_queue ++ [req] })
    else if task0.async then
      if oracle.async_start_ok then
        (DNN_SUCCESS, { st1 with in_flight := st1.in_flight ++ [request1] })
      else
        let req := { request1 with operands := none }
        (DNN_GENERIC_ERROR, { st1 with request_queue := st1.request_queue ++ [req] })
    else
      let r2 := native_start_inference st1 request1 oracle
      let ret2 := r2.1
      let st2 := r2.2.1
      let request2 := r2.2.2
      if ret2 ≠ DNN_SUCCESS then
        (ret2, { st2 with request_queue := st2.request_queue ++ [request2] })
      else
        let st3 := infer_completion_callback st2 request2
        let task := st3.tasks.getD lt dummyTask
        ((if task.inference_done = task.inference_todo then DNN_SUCCESS
          else DNN_GENERIC_ERROR), st3)

/-- ff_dnn_execute_model_native (source lines 614-656): check the exec
params (any failure becomes AVERROR(EINVAL)), allocate and fill the
TaskItem, push it onto the task queue, derive the lltask, pop an idle
request from the pool (an empty pool is AVERROR(EINVAL)) and execute.
Note that once the task is enqueued no failure path removes it. -/
def ff_dnn_execute_model_native (st : ModelState) (p : DNNExecBaseParams)
    (oracle : ExecOracle) : Int × ModelState :=
  if ff_check_exec_params p ≠ 0 then (AVERROR_EINVAL, st)
  else if ¬ oracle.task_alloc_ok then (AVERROR_ENOMEM, st)
  else
    let task := ff_dnn_fill_task p st.model.async_option true
    let taskIdx := st.tasks.length
    let st1 := { st with tasks := st.tasks ++ [task],
                         task_queue := st.task_queue ++ [taskIdx] }
    let r := extract_lltask_from_task st1 taskIdx oracle
    if r.1 ≠ DNN_SUCCESS then (r.1, r.2)
    else
      match r.2.request_queue with
      | [] => (AVERROR_EINVAL, r.2)
      | request :: rest =>
        execute_model_native { r.2 with request_queue := rest } request oracle

/-- ff_dnn_flush_native (source lines 658-693): with an empty lltask queue
return DNN_SUCCESS at once; otherwise pop an idle request, fill it and
hand it to the async executor; on failure push the request back (its
buffers are freed only if that push itself fails, which the model treats
as succeeding). -/
def ff_dnn_flush_native (st : ModelState) (oracle : ExecOracle) : Int × ModelState :=
  if st.lltask_queue.length = 0 then (DNN_SUCCESS, st)
  else
    match st.request_queue with
    | [] => (AVERROR_EINVAL, st)
    | request :: rest =>
      let st1 := { st with request_queue := rest }
      let r := fill_model_input_native st1 request oracle
      let ret := r.1
      let st2 := r.2.1
      let request2 := r.2.2
      if ret ≠ DNN_SUCCESS then
        (ret, { st2 with request_queue := st2.request_queue ++ [request2] })
      else if oracle.async_start_ok then
        (DNN_SUCCESS, { st2 with in_flight := st2.in_flight ++ [request2] })
      else
        (DNN_GENERIC_ERROR, { st2 with request_queue := st2.request_queue ++ [request2] })

/-- Modelled from the spec: the asynchronous executor collaborator (§4.4,
§6) runs start_inference on a checked-out request from a worker thread
and, only when it succeeds, runs the completion callback; a failed
start_inference has already recycled the request and the callback is
skipped.  `i` selects which in-flight request completes. -/
def asyncComplete (st : ModelState) (i : Nat) (oracle : ExecOracle) : ModelState :=
  if h : i < st.in_flight.length then
    let request := st.in_flight.get ⟨i, h⟩
    let st1 := { st with in_flight := st.in_flight.eraseIdx i }
    let r2 := native_start_inference st1 request oracle
    if r2.1 ≠ DNN_SUCCESS then r2.2.1
    else infer_completion_callback r2.2.1 r2.2.2
  else st

/-- Modelled from the spec: ff_dnn_get_result_common (dnn_backend_common.c,
not under src/) reports the head Task of the task queue as done exactly
when its inference_done equals its inference_todo, popping it and
yielding its frames; otherwise nothing is yielded (§3 Task invariant, §6
poll/drain). -/
def ff_dnn_get_result_native (st : ModelState) : Option (Nat × ModelState) :=
  match st.task_queue with
  | [] => none
  | t :: rest =>
    let task := st.tasks.getD t dummyTask
    if task.inference_done = task.inference_todo
    then some (t, { st with task_queue := rest })
    else none

/-! ### Concrete fixtures for witnesses and counterexamples -/

/-- Little-endian 32-bit encoding of a value, for building model files. -/
def u32bytes (n : Nat) : List Nat :=
  [n % 256, n / 256 % 256, n / 65536 % 256, n / 16777216 % 256]

/-- An ExecOracle on which every allocation and collaborator succeeds. -/
def allOkOracle : ExecOracle := ⟨true, true, true, true, true⟩

/-- An ExecOracle on which the first layer executor fails (everything else
succeeds). -/
def layerFailOracle : ExecOracle := ⟨true, true, true, false, true⟩

/-- An ExecOracle on which the LastLevelTaskItem allocation fails. -/
def noLLTaskOracle : ExecOracle := ⟨true, false, true, true, true⟩

/-- A LoadOracle whose per-layer loaders each consume 4 bytes of parameter
data and report success. -/
def stubLoadOracle : LoadOracle := ⟨fun _ pos => (4, pos + 4)⟩

/-- Template of an Input operand named "x" with shape [1, 0, 0, 3] (spatial
dims filled at run time). -/
def xOperand : DnnOperand := ⟨"x", DOT_INPUT, 1, 1, 0, 0, 3, 1, 0, none, 0⟩

/-- Template of an Output operand named "y" with shape [1, 0, 0, 3]. -/
def yOperand : DnnOperand := ⟨"y", DOT_OUTPUT, 1, 1, 0, 0, 3, 1, 0, none, 0⟩

/-- One operand record of the binary format: destination index, name length,
NUL-terminated name bytes, type, data type, four dims. -/
def operandRecord (idxBytes : List Nat) (nameBytes : List Nat) (ty : Nat)
    (d0 d1 d2 d3 : Nat) : List Nat :=
  idxBytes ++ u32bytes nameBytes.length ++ nameBytes ++ u32bytes ty ++ u32bytes 1 ++
    u32bytes d0 ++ u32bytes d1 ++ u32bytes d2 ++ u32bytes d3

/-- A well-formed model file: magic, major 1, minor 0, one layer record of
type 2 with 4 parameter bytes, operands "x" (Input, [1,0,0,3]) at index 0
and "y" (Output, [1,0,0,3]) at index 1, footer layer_count=1,
operand_count=2.  107 bytes in total. -/
def c1File : List Nat :=
  DNN_NATIVE_MAGIC ++ u32bytes 1 ++ u32bytes 0 ++
    u32bytes 2 ++ u32bytes 0 ++
    operandRecord (u32bytes 0) [120, 0] 1 1 0 0 3 ++
    operandRecord (u32bytes 1) [121, 0] 2 1 0 0 3 ++
    u32bytes 1 ++ u32bytes 2

/-- The state the loader produces for c1File with nireq = 1. -/
def c1State : ModelState :=
  ⟨⟨1, 2, [⟨2⟩], [xOperand, yOperand], 1, false⟩, [], [], [],
   [⟨0, some [xOperand, yOperand], none⟩], []⟩

/-- A synchronous submission of a 4x4 frame into "x", output "y". -/
def c1Params : DNNExecBaseParams := ⟨"x", ["y"], 1, 4, 4, 0, 0⟩

/-- A well-formed model file with no layers and the single Input operand
"x" at index 0: magic, versions, one operand record, footer
layer_count=0, operand_count=1.  65 bytes. -/
def c2File : List Nat :=
  DNN_NATIVE_MAGIC ++ u32bytes 1 ++ u32bytes 0 ++
    operandRecord (u32bytes 0) [120, 0] 1 1 0 0 3 ++
    u32bytes 0 ++ u32bytes 1

/-- A model file identical in framing to c2File except that its only
operand record carries destination index -1 (bytes FF FF FF FF) and type
Output.  65 bytes; every byte is accounted for, so the only question is
whether the index is rejected. -/
def c7File : List Nat :=
  DNN_NATIVE_MAGIC ++ u32bytes 1 ++ u32bytes 0 ++
    operandRecord [255, 255, 255, 255] [120, 0] 2 1 0 0 3 ++
    u32bytes 0 ++ u32bytes 1

/-- An operand whose byte length 4*2^20*2^20*1*1 = 2^42 overflows the
32-bit signed bound. -/
def overflowOperand : DnnOperand := ⟨"o", DOT_INPUT, 1, 1048576, 1048576, 1, 1, 1, 0, none, 0⟩

/-- An operand of shape [1,4,4,3]: byte length 192, well within bounds. -/
def smallOperand : DnnOperand := ⟨"o", DOT_INPUT, 1, 1, 4, 4, 3, 1, 0, none, 0⟩

/-- The state the loader produces for c2File with nireq = 1. -/
def c2State : ModelState :=
  ⟨⟨0, 1, [], [xOperand], 1, false⟩, [], [], [],
   [⟨0, some [xOperand], none⟩], []⟩

/-- The c1State model with an exhausted request pool. -/
def emptyPoolState : ModelState :=
  ⟨⟨1, 2, [⟨2⟩], [xOperand, yOperand], 1, false⟩, [], [], [], [], []⟩

/-- A submission requesting two output names. -/
def twoOutputParams : DNNExecBaseParams := ⟨"x", ["y", "z"], 2, 4, 4, 0, 0⟩

/-- A pooled request holding clones of the c1File operand templates. -/
def pooledRequest : NativeRequestItem := ⟨0, some [xOperand, yOperand], none⟩

/-- A synchronous task for a 4x4 frame, already extracted (todo 1, done
0). -/
def c4Task : TaskItem := ⟨"x", ["y"], 1, 4, 4, 0, 0, false, true, 1, 0⟩

/-- A state where c4Task is queued on both queues and its request has been
popped (awaiting fill). -/
def c4State : ModelState := ⟨c1State.model, [c4Task], [0], [0], [], []⟩

/-- A synchronous task whose 2^20 x 2^20 frame overflows the 32-bit byte
length for a 3-channel input. -/
def c5Task : TaskItem := ⟨"x", ["y"], 1, 1048576, 1048576, 0, 0, false, true, 1, 0⟩

/-- A state where c5Task is queued and its request has been popped. -/
def c5State : ModelState := ⟨c1State.model, [c5Task], [0], [0], [], []⟩

/-- Idle requests sitting in the pool plus requests checked out to the
asynchronous executor. -/
def poolCount (st : ModelState) : Nat :=
  st.request_queue.length + st.in_flight.length

/-- States reachable from a successful load through submissions whose
layer executors succeed, flushes, and asynchronous completions (the
completions may fail; fill failures, extraction failures and
pool-exhausted submissions are all included). -/
inductive ReachableNoSyncExecFail : ModelState → Prop
  | loaded (file : List Nat) (oracle : LoadOracle) (nireq0 : Int) (cpu : Nat)
      (b : Bool) (st : ModelState) :
      ff_dnn_load_model_native file oracle nireq0 cpu b = some st →
      ReachableNoSyncExecFail st
  | submit (st : ModelState) (p : DNNExecBaseParams) (oracle : ExecOracle) :
      ReachableNoSyncExecFail st → oracle.pf_exec_ok = true →
      ReachableNoSyncExecFail (ff_dnn_execute_model_native st p oracle).2
  | flush (st : ModelState) (oracle : ExecOracle) :
      ReachableNoSyncExecFail st →
      ReachableNoSyncExecFail (ff_dnn_flush_native st oracle).2
  | complete (st : ModelState) (i : Nat) (oracle : ExecOracle) :
      ReachableNoSyncExecFail st →
      ReachableNoSyncExecFail (asyncComplete st i oracle)

/-! ### Theorems -/

/-- If a nonnegative partial product already exceeds the bound while the
full product stays under it, the remaining factor must be zero. -/
theorem mul_le_bound_zero {a r B : Int} (ha : 0 ≤ a) (hr : 0 ≤ r)
    (hgt : B < a) (hle : a * r ≤ B) : r = 0 := by
  by_contra hne
  have hr1 : 1 ≤ r := by omega
  have h2 : a * 1 ≤ a * r := mul_le_mul_of_nonneg_left hr1 ha
  rw [mul_one] at h2
  omega

/-- Characterization of ff_calculate_operand_data_length on int32-range
nonnegative dims: it returns 4*batch*height*width*channels when that
product is within INT32_MAX, and 0 otherwise.  (When an intermediate
product exceeds the bound while the full product does not, some later dim
is zero, so the full product is zero and the returned 0 coincides with
it.) -/
theorem ff_calculate_operand_data_length_eq (o : DnnOperand)
    (b0 : 0 ≤ o.dims0) (u0 : o.dims0 ≤ INT32_MAX)
    (b1 : 0 ≤ o.dims1) (u1 : o.dims1 ≤ INT32_MAX)
    (b2 : 0 ≤ o.dims2) (u2 : o.dims2 ≤ INT32_MAX)
    (b3 : 0 ≤ o.dims3) (u3 : o.dims3 ≤ INT32_MAX) :
    ff_calculate_operand_data_length o =
      if 4 * (o.dims0 * o.dims1 * o.dims2 * o.dims3) ≤ INT32_MAX
      then 4 * (o.dims0 * o.dims1 * o.dims2 * o.dims3) else 0 := by
  obtain ⟨nm, ty, dt, d0, d1, d2, d3, hw, ln, da, un⟩ := o
  simp only at b0 u0 b1 u1 b2 u2 b3 u3
  have pM : INT32_MAX = 2147483647 := by norm_num [INT32_MAX]
  have p64 : (2 : Int) ^ 64 = 18446744073709551616 := by norm_num
  rw [pM] at u0 u1 u2 u3
  simp only [ff_calculate_operand_data_length, pM, p64]
  have e0 : d0 % 18446744073709551616 = d0 := Int.emod_eq_of_lt b0 (by omega)
  have e0' : 4 * d0 % 18446744073709551616 = 4 * d0 :=
    Int.emod_eq_of_lt (by omega) (by omega)
  rw [e0, e0']
  by_cases g0 : 4 * d0 > 2147483647
  · rw [if_pos g0]
    split_ifs with hp
    · have hr : d1 * (d2 * d3) = 0 := by
        refine mul_le_bound_zero (a := 4 * d0) (by omega) (by positivity) g0 ?_
        have ha : 4 * d0 * (d1 * (d2 * d3)) = 4 * (d0 * d1 * d2 * d3) := by ring
        rw [ha]; exact hp
      have hz : d0 * d1 * d2 * d3 = 0 := by
        have ha : d0 * d1 * d2 * d3 = d0 * (d1 * (d2 * d3)) := by ring
        rw [ha, hr, mul_zero]
      rw [hz]; ring
    · rfl
  · rw [if_neg g0]
    push_neg at g0
    have e1 : d1 % 18446744073709551616 = d1 := Int.emod_eq_of_lt b1 (by omega)
    have e1' : 4 * d0 * d1 % 18446744073709551616 = 4 * d0 * d1 := by
      refine Int.emod_eq_of_lt (by positivity) ?_
      calc 4 * d0 * d1 ≤ 2147483647 * 2147483647 :=
            mul_le_mul g0 u1 b1 (by omega)
        _ < 18446744073709551616 := by norm_num
    rw [e1, e1']
    by_cases g1 : 4 * d0 * d1 > 2147483647
    · rw [if_pos g1]
      split_ifs with hp
      · have hr : d2 * d3 = 0 := by
          refine mul_le_bound_zero (a := 4 * d0 * d1) (by positivity) (by positivity) g1 ?_
          have ha : 4 * d0 * d1 * (d2 * d3) = 4 * (d0 * d1 * d2 * d3) := by ring
          rw [ha]; exact hp
        have hz : d0 * d1 * d2 * d3 = 0 := by
          have ha : d0 * d1 * d2 * d3 = d0 * d1 * (d2 * d3) := by ring
          rw [ha, hr, mul_zero]
        rw [hz]; ring
      · rfl
    · rw [if_neg g1]
      push_neg at g1
      have e2 : d2 % 18446744073709551616 = d2 := Int.emod_eq_of_lt b2 (by omega)
      have e2' : 4 * d0 * d1 * d2 % 18446744073709551616 = 4 * d0 * d1 * d2 := by
        refine Int.emod_eq_of_lt (by positivity) ?_
        calc 4 * d0 * d1 * d2 ≤ 2147483647 * 2147483647 :=
              mul_le_mul g1 u2 b2 (by omega)
          _ < 18446744073709551616 := by norm_num
      rw [e2, e2']
      by_cases g2 : 4 * d0 * d1 * d2 > 2147483647
      · rw [if_pos g2]
        split_ifs with hp
        · have hr : d3 = 0 := by
            refine mul_le_bound_zero (a := 4 * d0 * d1 * d2) (by positivity) b3 g2 ?_
            have ha : 4 * d0 * d1 * d2 * d3 = 4 * (d0 * d1 * d2 * d3) := by ring
            rw [ha]; exact hp
          have hz : d0 * d1 * d2 * d3 = 0 := by rw [hr, mul_zero]
          rw [hz]; ring
        · rfl
      · rw [if_neg g2]
        push_neg at g2
        have e3 : d3 % 18446744073709551616 = d3 := Int.emod_eq_of_lt b3 (by omega)
        have e3' : 4 * d0 * d1 * d2 * d3 % 18446744073709551616 = 4 * d0 * d1 * d2 * d3 := by
          refine Int.emod_eq_of_lt (by positivity) ?_
          calc 4 * d0 * d1 * d2 * d3 ≤ 2147483647 * 2147483647 :=
                mul_le_mul g2 u3 b3 (by omega)
            _ < 18446744073709551616 := by norm_num
        rw [e3, e3']
        have hassoc : 4 * (d0 * d1 * d2 * d3) = 4 * d0 * d1 * d2 * d3 := by ring
        by_cases g3 : 4 * d0 * d1 * d2 * d3 > 2147483647
        · rw [if_pos g3, if_neg (by rw [hassoc]; omega)]
        · rw [if_neg g3]
          push_neg at g3
          rw [if_pos (by rw [hassoc]; exact g3), hassoc]

/-- C9: for a model whose Subtask (lltask) queue is empty, flush returns
DNN_SUCCESS immediately and leaves all state unchanged: no Request is
popped from the pool, neither queue is modified and no inference is
performed. -/
theorem flush_on_empty_subtask_queue_is_noop (st : ModelState) (oracle : ExecOracle)
    (h : st.lltask_queue = []) :
    ff_dnn_flush_native st oracle = (DNN_SUCCESS, st) := by
  simp [ff_dnn_flush_native, h]

/-- Witness for C9 at a concrete freshly loaded state. -/
theorem flush_on_empty_subtask_queue_is_noop_witness :
    c1State.lltask_queue = [] ∧
    ff_dnn_flush_native c1State allOkOracle = (DNN_SUCCESS, c1State) :=
  ⟨rfl, flush_on_empty_subtask_queue_is_noop c1State allOkOracle rfl⟩

/-- C3 counterexample: a submission requesting two outputs is rejected by
the parameter check, but ff_dnn_execute_model_native converts the check's
result into AVERROR(EINVAL), so the caller receives an invalid-argument
error, not the unsupported-feature error AVERROR(ENOSYS) the claim
names. -/
theorem multi_output_error_code_counterexample :
    (ff_dnn_execute_model_native c1State twoOutputParams allOkOracle).1 = AVERROR_EINVAL ∧
    AVERROR_EINVAL ≠ AVERROR_ENOSYS := by decide

/-- C3 amended: a Task requesting other than exactly one output fails
immediately with AVERROR(EINVAL) (the unsupported-feature condition is
detected by the parameter check, but the entry point returns EINVAL), the
state is completely unchanged — so nothing leaks — and no Request is
consumed from the pool. -/
theorem multi_output_rejected_immediately (st : ModelState) (p : DNNExecBaseParams)
    (oracle : ExecOracle) (h : p.nb_output ≠ 1) :
    ff_dnn_execute_model_native st p oracle = (AVERROR_EINVAL, st) := by
  simp [ff_dnn_execute_model_native, ff_check_exec_params, h, AVERROR_ENOSYS]

/-- Witness for the amended C3. -/
theorem multi_output_rejected_immediately_witness :
    twoOutputParams.nb_output ≠ 1 ∧
    ff_dnn_execute_model_native emptyPoolState twoOutputParams layerFailOracle
      = (AVERROR_EINVAL, emptyPoolState) :=
  ⟨by decide,
   multi_output_rejected_immediately emptyPoolState twoOutputParams layerFailOracle
     (by decide)⟩

/-- C10: a submission that fails after the Task was enqueued is not rolled
back.  First conjunct: if the Subtask (lltask) extraction fails, the entry
point returns AVERROR(ENOMEM) but the Task stays at the tail of the task
queue, and neither the lltask queue nor the request pool is touched.
Second conjunct: if the pool is exhausted, the entry point returns
AVERROR(EINVAL) while the Task stays in the task queue and its Subtask
stays in the lltask queue. -/
theorem failed_submission_leaves_task_enqueued :
    (∀ (st : ModelState) (p : DNNExecBaseParams) (oracle : ExecOracle),
      p.nb_output = 1 → oracle.task_alloc_ok = true → oracle.lltask_alloc_ok = false →
      (ff_dnn_execute_model_native st p oracle).1 = AVERROR_ENOMEM ∧
      (ff_dnn_execute_model_native st p oracle).2.task_queue
        = st.task_queue ++ [st.tasks.length] ∧
      (ff_dnn_execute_model_native st p oracle).2.lltask_queue = st.lltask_queue ∧
      (ff_dnn_execute_model_native st p oracle).2.request_queue = st.request_queue) ∧
    (∀ (st : ModelState) (p : DNNExecBaseParams) (oracle : ExecOracle),
      p.nb_output = 1 → oracle.task_alloc_ok = true → oracle.lltask_alloc_ok = true →
      st.request_queue = [] →
      (ff_dnn_execute_model_native st p oracle).1 = AVERROR_EINVAL ∧
      (ff_dnn_execute_model_native st p oracle).2.task_queue
        = st.task_queue ++ [st.tasks.length] ∧
      (ff_dnn_execute_model_native st p oracle).2.lltask_queue
        = st.lltask_queue ++ [st.tasks.length]) := by
  constructor
  · intro st p oracle hnb hta hlla
    simp [ff_dnn_execute_model_native, ff_check_exec_params, hnb, hta, hlla,
          extract_lltask_from_task, AVERROR_ENOMEM, DNN_SUCCESS]
  · intro st p oracle hnb hta hlla hpool
    simp [ff_dnn_execute_model_native, ff_check_exec_params, hnb, hta, hlla,
          extract_lltask_from_task, hpool, AVERROR_EINVAL, DNN_SUCCESS]

/-- Witness for C10 at concrete inputs: the lltask-allocation failure case
on a one-request pool, and the pool-exhausted case. -/
theorem failed_submission_leaves_task_enqueued_witness :
    ((ff_dnn_execute_model_native c1State c1Params noLLTaskOracle).1 = AVERROR_ENOMEM ∧
      (ff_dnn_execute_model_native c1State c1Params noLLTaskOracle).2.task_queue
        = c1State.task_queue ++ [c1State.tasks.length] ∧
      (ff_dnn_execute_model_native c1State c1Params noLLTaskOracle).2.lltask_queue
        = c1State.lltask_queue ∧
      (ff_dnn_execute_model_native c1State c1Params noLLTaskOracle).2.request_queue
        = c1State.request_queue) ∧
    ((ff_dnn_execute_model_native emptyPoolState c1Params allOkOracle).1 = AVERROR_EINVAL ∧
      (ff_dnn_execute_model_native emptyPoolState c1Params allOkOracle).2.task_queue
        = emptyPoolState.task_queue ++ [emptyPoolState.tasks.length] ∧
      (ff_dnn_execute_model_native emptyPoolState c1Params allOkOracle).2.lltask_queue
        = emptyPoolState.lltask_queue ++ [emptyPoolState.tasks.length]) :=
  ⟨failed_submission_leaves_task_enqueued.1 c1State c1Params noLLTaskOracle rfl rfl rfl,
   failed_submission_leaves_task_enqueued.2 emptyPoolState c1Params allOkOracle rfl rfl rfl rfl⟩

/-- C7 counterexample: a 65-byte model file whose single operand record
carries destination index -1 (bytes FF FF FF FF).  The claim requires the
load to fail for indexes below zero, but the signed bounds check
operand_index >= operands_num admits the negative index and the load
succeeds (in C the subsequent store through that index is an
out-of-bounds write). -/
theorem negative_operand_index_not_rejected :
    i32ofU32 (rl32 c7File 23) = -1 ∧
    (ff_dnn_load_model_native c7File stubLoadOracle 1 0 false).isSome = true := by
  decide

/-- C7 amended: an operand record whose destination index is at or above
operand_count makes the operand-parsing loop — and hence the load — fail
hard; indexes below zero are not rejected by the bounds check. -/
theorem operand_index_at_or_above_count_rejected (file : List Nat) (cnt : Int)
    (n pos : Nat) (dsz : Int) (ops : List DnnOperand)
    (h : cnt ≤ i32ofU32 (rl32 file pos)) :
    parseOperands file cnt (n + 1) pos dsz ops = none := by
  simp [parseOperands, ge_iff_le, h]

/-- Witness for the amended C7: a record with index 5 against a 1-operand
store is rejected. -/
theorem operand_index_at_or_above_count_rejected_witness :
    (1 : Int) ≤ i32ofU32 (rl32 [5, 0, 0, 0] 0) ∧
    parseOperands [5, 0, 0, 0] 1 1 0 0 [] = none :=
  ⟨by decide, operand_index_at_or_above_count_rejected [5, 0, 0, 0] 1 0 0 0 [] (by decide)⟩

/-- C2: the loader returns a model only when the accumulated byte total
(magic, both version words, every layer record, every operand record and
the 8-byte footer) is exactly the file's length: a successful
ff_dnn_load_model_native means loadModelAux finished with dnn_size equal
to the file size. -/
theorem load_succeeds_only_if_bytes_match (file : List Nat) (oracle : LoadOracle)
    (nireq0 : Int) (cpu : Nat) (b : Bool) (st : ModelState)
    (h : ff_dnn_load_model_native file oracle nireq0 cpu b = some st) :
    loadModelAux file oracle nireq0 cpu b = some (st, (file.length : Int)) := by
  unfold ff_dnn_load_model_native at h
  rcases haux : loadModelAux file oracle nireq0 cpu b with _ | ⟨stx, dsz⟩
  · rw [haux] at h; exact absurd h (by simp)
  · rw [haux] at h
    by_cases hd : dsz = (file.length : Int)
    · simp only [hd, if_pos] at h
      obtain rfl : stx = st := by injection h
      simp [haux, hd]
    · simp only [if_neg hd] at h
      exact absurd h (by simp)

/-- Witness for C2: the well-formed 65-byte file c2File loads, and the
byte accounting indeed finishes at 65. -/
theorem load_succeeds_only_if_bytes_match_witness :
    loadModelAux c2File stubLoadOracle 1 0 false = some (c2State, (c2File.length : Int)) :=
  load_succeeds_only_if_bytes_match c2File stubLoadOracle 1 0 false c2State (by decide)

/-- C1 counterexample: from the freshly loaded one-request state c1State
(produced by the loader on the concrete file c1File with nireq = 1), a
single synchronous submission whose layer executor fails leaves the pool
with TWO entries (the same request pushed back twice — once by
native_start_inference's failure path and once by execute_model_native's
err label) while nothing is checked out, so idle + checked-out = 2 differs
from nireq = 1. -/
theorem pool_cardinality_counterexample :
    ff_dnn_load_model_native c1File stubLoadOracle 1 0 false = some c1State ∧
    c1State.model.nireq = 1 ∧
    c1State.request_queue.length + c1State.in_flight.length = 1 ∧
    ((ff_dnn_execute_model_native c1State c1Params layerFailOracle).2.request_queue.length
      + (ff_dnn_execute_model_native c1State c1Params layerFailOracle).2.in_flight.length
      = 2) := by
  decide

/-- Reading back the slot just written in a list. -/
theorem getD_set_self {α : Type} (l : List α) (i : Nat) (h : i < l.length) (v d : α) :
    (l.set i v).getD i d = v := by
  rw [List.getD_eq_getElem?_getD, List.getElem?_set_self h, Option.getD_some]

/-- The request-local fill rejects an input operand whose recomputed byte
length is non-positive with AVERROR(EINVAL), before any buffer is
allocated: the operand's data stays freed (none). -/
theorem fill_core_overflow (model : NativeModel) (task : TaskItem)
    (request : NativeRequestItem) (oracle : ExecOracle) (i : Nat)
    (hl : 0 < model.layers_num) (ho : 0 < model.operands_num)
    (hfind : (request.operands.getD []).findIdx?
        (fun o => o.name = task.input_name) = some i)
    (htype : ((request.operands.getD []).getD i zeroOperand).type = DOT_INPUT)
    (hlen : ff_calculate_operand_data_length
        (withInputDims ((request.operands.getD []).getD i zeroOperand)
          task.in_height task.in_width) ≤ 0) :
    (fill_model_input_core model task request oracle).1 = AVERROR_EINVAL ∧
    (((fill_model_input_core model task request oracle).2.operands.getD []).getD i
        zeroOperand).data = none := by
  have hlt : i < (request.operands.getD []).length :=
    (List.findIdx?_eq_some_iff_findIdx_eq.mp hfind).1
  unfold fill_model_input_core
  rw [if_neg (by push_neg; exact ⟨hl, ho⟩)]
  simp only [hfind]
  rw [if_neg (by push_neg; exact htype)]
  rw [if_pos (by exact hlen)]
  refine ⟨rfl, ?_⟩
  simp only [Option.getD_some]
  rw [getD_set_self _ i hlt]
  simp [withInputDims]

/-- The request-local fill, on a found DOT_INPUT operand whose recomputed
byte length L is positive, with a successful buffer allocation and a
single requested output: returns DNN_SUCCESS and leaves the operand with
its batch and channel dims intact, spatial dims from the frame, length L
and an allocated buffer of L bytes. -/
theorem fill_core_success (model : NativeModel) (task : TaskItem)
    (request : NativeRequestItem) (oracle : ExecOracle) (i : Nat)
    (hl : 0 < model.layers_num) (ho : 0 < model.operands_num)
    (hfind : (request.operands.getD []).findIdx?
        (fun o => o.name = task.input_name) = some i)
    (htype : ((request.operands.getD []).getD i zeroOperand).type = DOT_INPUT)
    (hlen : 0 < ff_calculate_operand_data_length
        (withInputDims ((request.operands.getD []).getD i zeroOperand)
          task.in_height task.in_width))
    (halloc : oracle.data_alloc_ok = true)
    (hnb : task.nb_output = 1) :
    (fill_model_input_core model task request oracle).1 = DNN_SUCCESS ∧
    (((fill_model_input_core model task request oracle).2.operands.getD []).getD i
        zeroOperand) =
      ⟨((request.operands.getD []).getD i zeroOperand).name,
       ((request.operands.getD []).getD i zeroOperand).type,
       ((request.operands.getD []).getD i zeroOperand).data_type,
       ((request.operands.getD []).getD i zeroOperand).dims0,
       task.in_height, task.in_width,
       ((request.operands.getD []).getD i zeroOperand).dims3,
       ((request.operands.getD []).getD i zeroOperand).isNHWC,
       ff_calculate_operand_data_length
         (withInputDims ((request.operands.getD []).getD i zeroOperand)
           task.in_height task.in_width),
       some (ff_calculate_operand_data_length
         (withInputDims ((request.operands.getD []).getD i zeroOperand)
           task.in_height task.in_width)),
       ((request.operands.getD []).getD i zeroOperand).usedNumbersLeft⟩ := by
  have hlt : i < (request.operands.getD []).length :=
    (List.findIdx?_eq_some_iff_findIdx_eq.mp hfind).1
  unfold fill_model_input_core
  rw [if_neg (by push_neg; exact ⟨hl, ho⟩)]
  simp only [hfind]
  rw [if_neg (by push_neg; exact htype)]
  rw [if_neg (by omega : ¬ ff_calculate_operand_data_length
    (withInputDims ((request.operands.getD []).getD i zeroOperand)
      task.in_height task.in_width) ≤ 0)]
  rw [if_neg (by simp [halloc])]
  rw [if_neg (by simp [hnb])]
  refine ⟨rfl, ?_⟩
  simp only [Option.getD_some]
  rw [getD_set_self _ i hlt]
  simp [withInputDims]

/-- C5: for int32-range nonnegative dims, the byte-length computation
sizeof(float)*batch*height*width*channels reports failure (returns 0)
whenever the product exceeds the 32-bit signed bound, returns exactly the
product whenever it stays within the bound, and the fill routine rejects
an input operand whose recomputed length is non-positive with
AVERROR(EINVAL) before allocating its data buffer. -/
theorem operand_length_overflow_spec :
    (∀ o : DnnOperand,
      0 ≤ o.dims0 → o.dims0 ≤ INT32_MAX → 0 ≤ o.dims1 → o.dims1 ≤ INT32_MAX →
      0 ≤ o.dims2 → o.dims2 ≤ INT32_MAX → 0 ≤ o.dims3 → o.dims3 ≤ INT32_MAX →
      INT32_MAX < 4 * (o.dims0 * o.dims1 * o.dims2 * o.dims3) →
      ff_calculate_operand_data_length o = 0) ∧
    (∀ o : DnnOperand,
      0 ≤ o.dims0 → o.dims0 ≤ INT32_MAX → 0 ≤ o.dims1 → o.dims1 ≤ INT32_MAX →
      0 ≤ o.dims2 → o.dims2 ≤ INT32_MAX → 0 ≤ o.dims3 → o.dims3 ≤ INT32_MAX →
      4 * (o.dims0 * o.dims1 * o.dims2 * o.dims3) ≤ INT32_MAX →
      ff_calculate_operand_data_length o
        = 4 * (o.dims0 * o.dims1 * o.dims2 * o.dims3)) ∧
    (∀ (st : ModelState) (request : NativeRequestItem) (oracle : ExecOracle)
        (lt : Nat) (rest : List Nat) (i : Nat),
      st.lltask_queue = lt :: rest →
      0 < st.model.layers_num → 0 < st.model.operands_num →
      (request.operands.getD []).findIdx?
        (fun o => o.name = (st.tasks.getD lt dummyTask).input_name) = some i →
      ((request.operands.getD []).getD i zeroOperand).type = DOT_INPUT →
      ff_calculate_operand_data_length
        (withInputDims ((request.operands.getD []).getD i zeroOperand)
          (st.tasks.getD lt dummyTask).in_height
          (st.tasks.getD lt dummyTask).in_width) ≤ 0 →
      (fill_model_input_native st request oracle).1 = AVERROR_EINVAL ∧
      (((fill_model_input_native st request oracle).2.2.operands.getD []).getD i
          zeroOperand).data = none) := by
  refine ⟨?_, ?_, ?_⟩
  · intro o b0 u0 b1 u1 b2 u2 b3 u3 hover
    rw [ff_calculate_operand_data_length_eq o b0 u0 b1 u1 b2 u2 b3 u3,
        if_neg (by omega)]
  · intro o b0 u0 b1 u1 b2 u2 b3 u3 hle
    rw [ff_calculate_operand_data_length_eq o b0 u0 b1 u1 b2 u2 b3 u3, if_pos hle]
  · intro st request oracle lt rest i hq hl ho hfind htype hlen
    have h := fill_core_overflow st.model (st.tasks.getD lt dummyTask)
      { request with lltask := some lt } oracle i hl ho hfind htype hlen
    unfold fill_model_input_native
    simp only [hq]
    exact h

/-- Witness for C5: the overflowing operand, the in-range operand, and a
concrete fill of a 2^20 x 2^20 frame into a 3-channel input being
rejected with no buffer allocated. -/
theorem operand_length_overflow_spec_witness :
    ff_calculate_operand_data_length overflowOperand = 0 ∧
    ff_calculate_operand_data_length smallOperand = 4 * (1 * 4 * 4 * 3) ∧
    ((fill_model_input_native c5State pooledRequest allOkOracle).1 = AVERROR_EINVAL ∧
      (((fill_model_input_native c5State pooledRequest allOkOracle).2.2.operands.getD
          []).getD 0 zeroOperand).data = none) :=
  ⟨operand_length_overflow_spec.1 overflowOperand (by decide) (by decide) (by decide)
      (by decide) (by decide) (by decide) (by decide) (by decide) (by decide),
   operand_length_overflow_spec.2.1 smallOperand (by decide) (by decide) (by decide)
      (by decide) (by decide) (by decide) (by decide) (by decide) (by decide),
   operand_length_overflow_spec.2.2 c5State pooledRequest allOkOracle 0 [] 0
      (by decide) (by decide) (by decide) (by decide) (by decide) (by decide)⟩

/-- C4: given an Input operand template with batch 1 and channel count C,
and a supplied frame of height H and width W whose 4*H*W*C byte length is
positive and within the 32-bit signed bound, the fill step succeeds and
leaves the input operand with shape exactly [1, H, W, C], byte length
4*H*W*C and an allocated buffer of 4*H*W*C bytes. -/
theorem fill_input_shape_spec (st : ModelState) (request : NativeRequestItem)
    (oracle : ExecOracle) (lt : Nat) (rest : List Nat) (i : Nat) (H W C : Int)
    (hq : st.lltask_queue = lt :: rest)
    (hl : 0 < st.model.layers_num) (ho : 0 < st.model.operands_num)
    (hfind : (request.operands.getD []).findIdx?
        (fun o => o.name = (st.tasks.getD lt dummyTask).input_name) = some i)
    (htype : ((request.operands.getD []).getD i zeroOperand).type = DOT_INPUT)
    (hbatch : ((request.operands.getD []).getD i zeroOperand).dims0 = 1)
    (hH : (st.tasks.getD lt dummyTask).in_height = H)
    (hW : (st.tasks.getD lt dummyTask).in_width = W)
    (hC : ((request.operands.getD []).getD i zeroOperand).dims3 = C)
    (hH0 : 0 ≤ H) (hH1 : H ≤ INT32_MAX) (hW0 : 0 ≤ W) (hW1 : W ≤ INT32_MAX)
    (hC0 : 0 ≤ C) (hC1 : C ≤ INT32_MAX)
    (hpos : 0 < H * W * C) (hbound : 4 * (H * W * C) ≤ INT32_MAX)
    (halloc : oracle.data_alloc_ok = true)
    (hnb : (st.tasks.getD lt dummyTask).nb_output = 1) :
    (fill_model_input_native st request oracle).1 = DNN_SUCCESS ∧
    (((fill_model_input_native st request oracle).2.2.operands.getD []).getD i
        zeroOperand).dims0 = 1 ∧
    (((fill_model_input_native st request oracle).2.2.operands.getD []).getD i
        zeroOperand).dims1 = H ∧
    (((fill_model_input_native st request oracle).2.2.operands.getD []).getD i
        zeroOperand).dims2 = W ∧
    (((fill_model_input_native st request oracle).2.2.operands.getD []).getD i
        zeroOperand).dims3 = C ∧
    (((fill_model_input_native st request oracle).2.2.operands.getD []).getD i
        zeroOperand).length = 4 * (H * W * C) ∧
    (((fill_model_input_native st request oracle).2.2.operands.getD []).getD i
        zeroOperand).data = some (4 * (H * W * C)) := by
  have hcalc : ff_calculate_operand_data_length
      (withInputDims ((request.operands.getD []).getD i zeroOperand)
        (st.tasks.getD lt dummyTask).in_height
        (st.tasks.getD lt dummyTask).in_width) = 4 * (H * W * C) := by
    rw [ff_calculate_operand_data_length_eq _
      (by dsimp only [withInputDims]; rw [hbatch]; norm_num)
      (by dsimp only [withInputDims]; rw [hbatch]; norm_num [INT32_MAX])
      (by dsimp only [withInputDims]; rw [hH]; exact hH0)
      (by dsimp only [withInputDims]; rw [hH]; exact hH1)
      (by dsimp only [withInputDims]; rw [hW]; exact hW0)
      (by dsimp only [withInputDims]; rw [hW]; exact hW1)
      (by dsimp only [withInputDims]; rw [hC]; exact hC0)
      (by dsimp only [withInputDims]; rw [hC]; exact hC1)]
    dsimp only [withInputDims]
    rw [hbatch, hH, hW, hC, one_mul, if_pos hbound]
  have hsucc := fill_core_success st.model (st.tasks.getD lt dummyTask)
    { request with lltask := some lt } oracle i hl ho hfind htype
    (by rw [hcalc]; omega) halloc hnb
  unfold fill_model_input_native
  simp only [hq]
  refine ⟨hsucc.1, ?_, ?_, ?_, ?_, ?_, ?_⟩
  · rw [hsucc.2]; exact hbatch
  · rw [hsucc.2]; exact hH
  · rw [hsucc.2]; exact hW
  · rw [hsucc.2]; exact hC
  · rw [hsucc.2]; exact hcalc
  · rw [hsucc.2]; dsimp only; rw [hcalc]

/-- Witness for C4: filling a 4x4 frame into the 3-channel input "x" of
the concrete model. -/
theorem fill_input_shape_spec_witness :
    (fill_model_input_native c4State pooledRequest allOkOracle).1 = DNN_SUCCESS ∧
    (((fill_model_input_native c4State pooledRequest allOkOracle).2.2.operands.getD
        []).getD 0 zeroOperand).dims0 = 1 ∧
    (((fill_model_input_native c4State pooledRequest allOkOracle).2.2.operands.getD
        []).getD 0 zeroOperand).dims1 = 4 ∧
    (((fill_model_input_native c4State pooledRequest allOkOracle).2.2.operands.getD
        []).getD 0 zeroOperand).dims2 = 4 ∧
    (((fill_model_input_native c4State pooledRequest allOkOracle).2.2.operands.getD
        []).getD 0 zeroOperand).dims3 = 3 ∧
    (((fill_model_input_native c4State pooledRequest allOkOracle).2.2.operands.getD
        []).getD 0 zeroOperand).length = 4 * (4 * 4 * 3) ∧
    (((fill_model_input_native c4State pooledRequest allOkOracle).2.2.operands.getD
        []).getD 0 zeroOperand).data = some (4 * (4 * 4 * 3)) :=
  fill_input_shape_spec c4State pooledRequest allOkOracle 0 [] 0 4 4 3
    (by decide) (by decide) (by decide) (by decide) (by decide) (by decide)
    (by decide) (by decide) (by decide) (by decide) (by decide) (by decide)
    (by decide) (by decide) (by decide) (by decide) (by decide) (by decide)
    (by decide)

/-- The operand-parsing loop preserves the Input-batch invariant: each
record that survives the DOT_INPUT/dims[0] check and is stored satisfies
it, and out-of-bounds stores do not change the store. -/
theorem parseOperands_input_batch (file : List Nat) (cnt : Int) :
    ∀ (n pos : Nat) (dsz : Int) (ops : List DnnOperand) (res : Nat × Int × List DnnOperand),
      (∀ o ∈ ops, o.type = DOT_INPUT → o.dims0 = 1) →
      parseOperands file cnt n pos dsz ops = some res →
      ∀ o ∈ res.2.2, o.type = DOT_INPUT → o.dims0 = 1 := by
  intro n
  induction n with
  | zero =>
    intro pos dsz ops res hinv h
    unfold parseOperands at h
    obtain rfl : (pos, dsz, ops) = res := by injection h
    exact hinv
  | succ n ih =>
    intro pos dsz ops res hinv h
    simp only [parseOperands] at h
    split at h
    · exact absurd h (by simp)
    · split at h
      · exact absurd h (by simp)
      · rename_i hty
        refine ih _ _ _ res ?_ h
        intro o ho hin
        unfold setOperand at ho
        split at ho
        · rcases List.mem_or_eq_of_mem_set ho with hmem | rfl
          · exact hinv o hmem hin
          · push_neg at hty
            exact hty hin
        · exact hinv o ho hin

/-- Inversion of a successful loadModelAux run: the fresh state has empty
task stores and queues, nothing in flight, a positive nireq, a request
pool of exactly nireq clones of the operand templates, and templates that
came out of the operand-parsing loop started on a zeroed store. -/
theorem loadModelAux_some_inv {file : List Nat} {oracle : LoadOracle} {nireq0 : Int}
    {cpu : Nat} {b : Bool} {st : ModelState} {dsz : Int}
    (h : loadModelAux file oracle nireq0 cpu b = some (st, dsz)) :
    st.tasks = [] ∧ st.task_queue = [] ∧ st.lltask_queue = [] ∧ st.in_flight = [] ∧
    0 < st.model.nireq ∧
    st.request_queue = (List.range st.model.nireq.toNat).map
      (fun i => (⟨i, some (copy_operands st.model.operands), none⟩ : NativeRequestItem)) ∧
    ∃ pos pos2 dnn1,
      parseOperands file st.model.operands_num st.model.operands_num.toNat pos dnn1
        (List.replicate st.model.operands_num.toNat zeroOperand)
        = some (pos2, dsz, st.model.operands) := by
  simp only [loadModelAux] at h
  split at h; · exact absurd h (by simp)
  split at h; · exact absurd h (by simp)
  split at h; · exact absurd h (by simp)
  split at h; · exact absurd h (by simp)
  split at h; · exact absurd h (by simp)
  split at h
  · exact absurd h (by simp)
  next pos dnn1 layers hL =>
    split at h
    · exact absurd h (by simp)
    next pos2 dnn2 operands hO =>
      simp only [Option.some.injEq, Prod.mk.injEq] at h
      obtain ⟨hst, hdsz⟩ := h
      subst hdsz
      subst hst
      refine ⟨rfl, rfl, rfl, rfl, ?_, rfl, pos, pos2, dnn1, hO⟩
      dsimp only
      split_ifs with hn
      · have hc : (0 : Int) ≤ (cpu : Int) / 2 :=
          Int.ediv_nonneg (Int.ofNat_nonneg cpu) (by norm_num)
        omega
      · omega

/-- Helper: a successful load means loadModelAux succeeded on the same
state (with some final byte count). -/
theorem load_some_aux {file : List Nat} {oracle : LoadOracle} {nireq0 : Int}
    {cpu : Nat} {b : Bool} {st : ModelState}
    (h : ff_dnn_load_model_native file oracle nireq0 cpu b = some st) :
    ∃ dsz, loadModelAux file oracle nireq0 cpu b = some (st, dsz) := by
  unfold ff_dnn_load_model_native at h
  rcases haux : loadModelAux file oracle nireq0 cpu b with _ | ⟨stx, dsz⟩
  · rw [haux] at h; exact absurd h (by simp)
  · rw [haux] at h
    by_cases hd : dsz = (file.length : Int)
    · simp only [hd, if_pos] at h
      obtain rfl : stx = st := by injection h
      exact ⟨(file.length : Int), by simp [haux, hd]⟩
    · simp only [if_neg hd] at h
      exact absurd h (by simp)

/-- C8: after any successful load, every operand template of kind
DOT_INPUT has batch dimension 1 (the loader rejects all others), and the
same holds inside every pooled request's operand clones — so any query of
an Input operand's shape observes batch == 1 (the av_assert0 in
get_input_native holds). -/
theorem input_operand_batch_always_one (file : List Nat) (oracle : LoadOracle)
    (nireq0 : Int) (cpu : Nat) (b : Bool) (st : ModelState)
    (h : ff_dnn_load_model_native file oracle nireq0 cpu b = some st) :
    (∀ o ∈ st.model.operands, o.type = DOT_INPUT → o.dims0 = 1) ∧
    (∀ req ∈ st.request_queue, ∀ ops, req.operands = some ops →
      ∀ o ∈ ops, o.type = DOT_INPUT → o.dims0 = 1) := by
  obtain ⟨dsz, haux⟩ := load_some_aux h
  obtain ⟨-, -, -, -, -, hpool, pos, pos2, dnn1, hparse⟩ := loadModelAux_some_inv haux
  have hops : ∀ o ∈ st.model.operands, o.type = DOT_INPUT → o.dims0 = 1 := by
    have hbase : ∀ o ∈ List.replicate st.model.operands_num.toNat zeroOperand,
        o.type = DOT_INPUT → o.dims0 = 1 := by
      intro o ho ht
      obtain rfl := List.eq_of_mem_replicate ho
      exact absurd ht (by simp [zeroOperand, DOT_INPUT])
    exact parseOperands_input_batch file st.model.operands_num
      st.model.operands_num.toNat pos dnn1 _ (pos2, dsz, st.model.operands)
      hbase hparse
  refine ⟨hops, ?_⟩
  intro req hreq ops hopseq o ho
  rw [hpool] at hreq
  obtain ⟨i, -, rfl⟩ := List.mem_map.mp hreq
  obtain rfl : copy_operands st.model.operands = ops := by injection hopseq
  obtain ⟨src, hsrc, rfl⟩ := List.mem_map.mp ho
  intro ht
  exact hops src hsrc ht

/-- Witness for C8: the concrete load of c2File. -/
theorem input_operand_batch_always_one_witness :
    (∀ o ∈ c2State.model.operands, o.type = DOT_INPUT → o.dims0 = 1) ∧
    (∀ req ∈ c2State.request_queue, ∀ ops, req.operands = some ops →
      ∀ o ∈ ops, o.type = DOT_INPUT → o.dims0 = 1) :=
  input_operand_batch_always_one c2File stubLoadOracle 1 0 false c2State (by decide)

/-- Setting the slot just past an appended singleton replaces it. -/
theorem set_append_last {α : Type} (l : List α) (a v : α) :
    (l ++ [a]).set l.length v = l ++ [v] := by
  induction l with
  | nil => rfl
  | cons x xs ih => simp [ih]

/-- Reading the slot of an appended singleton. -/
theorem getD_append_self {α : Type} (l : List α) (a d : α) :
    (l ++ [a]).getD l.length d = a := by
  induction l with
  | nil => rfl
  | cons x xs ih => simp [ih]

/-- The request-local fill never changes which lltask the request is bound
to. -/
theorem fill_core_lltask (m : NativeModel) (t : TaskItem) (r : NativeRequestItem)
    (o : ExecOracle) : (fill_model_input_core m t r o).2.lltask = r.lltask := by
  simp only [fill_model_input_core]
  split
  · rfl
  · split
    · rfl
    · split
      · rfl
      · split_ifs <;> rfl

/-- The completion callback pushes exactly one request back onto the pool
and touches neither the in-flight set nor the model. -/
theorem callback_counts (st : ModelState) (req : NativeRequestItem) :
    (infer_completion_callback st req).request_queue.length
      = st.request_queue.length + 1 ∧
    (infer_completion_callback st req).in_flight = st.in_flight ∧
    (infer_completion_callback st req).model = st.model := by
  simp only [infer_completion_callback]
  split <;> simp

/-- With all layer executors succeeding, native_start_inference is the
identity on state and request and returns DNN_SUCCESS. -/
theorem native_start_ok (st : ModelState) (req : NativeRequestItem)
    (oracle : ExecOracle) (h : oracle.pf_exec_ok = true) :
    native_start_inference st req oracle = (DNN_SUCCESS, st, req) := by
  unfold native_start_inference
  rw [if_neg (by simp [h])]

/-- With a nonempty lltask queue and successful layer executors, one call
to execute_model_native returns exactly one request to the pool or hands
it to the async executor, and leaves the model untouched. -/
theorem execute_adds_one (st : ModelState) (req : NativeRequestItem)
    (oracle : ExecOracle) (hq : st.lltask_queue ≠ [])
    (hexec : oracle.pf_exec_ok = true) :
    poolCount (execute_model_native st req oracle).2 = poolCount st + 1 ∧
    (execute_model_native st req oracle).2.model = st.model := by
  obtain ⟨lt, rest, hq'⟩ : ∃ lt rest, st.lltask_queue = lt :: rest := by
    cases h : st.lltask_queue with
    | nil => exact absurd h hq
    | cons a l => exact ⟨a, l, rfl⟩
  simp only [execute_model_native, fill_model_input_native, hq']
  by_cases h1 : (fill_model_input_core st.model (st.tasks.getD lt dummyTask)
      { req with lltask := some lt } oracle).1 = DNN_SUCCESS
  · rw [if_neg (not_not_intro h1)]
    by_cases h2 : (st.tasks.getD lt dummyTask).async = true
    · rw [if_pos h2]
      by_cases h3 : oracle.async_start_ok = true
      · rw [if_pos h3]
        refine ⟨?_, rfl⟩
        simp [poolCount]
        omega
      · rw [if_neg h3]
        refine ⟨?_, rfl⟩
        simp [poolCount]
        omega
    · rw [if_neg h2]
      rw [native_start_ok _ _ _ hexec]
      dsimp only
      rw [if_neg (not_not_intro rfl)]
      refine ⟨?_, ?_⟩
      · obtain ⟨hc1, hc2, -⟩ := callback_counts { st with lltask_queue := rest }
          (fill_model_input_core st.model (st.tasks.getD lt dummyTask)
            { req with lltask := some lt } oracle).2
        unfold poolCount
        rw [hc1, hc2]
        dsimp only
        omega
      · obtain ⟨-, -, hc3⟩ := callback_counts { st with lltask_queue := rest }
          (fill_model_input_core st.model (st.tasks.getD lt dummyTask)
            { req with lltask := some lt } oracle).2
        rw [hc3]
  · rw [if_pos h1]
    refine ⟨?_, rfl⟩
    simp [poolCount]
    omega

/-- A successful Subtask extraction in equational form. -/
theorem extract_ok (st : ModelState) (taskIdx : Nat) (oracle : ExecOracle)
    (h : oracle.lltask_alloc_ok = true) :
    extract_lltask_from_task st taskIdx oracle =
      (DNN_SUCCESS, { st with
        tasks := st.tasks.set taskIdx
          { st.tasks.getD taskIdx dummyTask with
              inference_todo := 1, inference_done := 0 },
        lltask_queue := st.lltask_queue ++ [taskIdx] }) := by
  unfold extract_lltask_from_task
  rw [if_neg (not_not_intro h)]

/-- A submission whose layer executors succeed preserves the pool count
and the model. -/
theorem submit_preserves (st : ModelState) (p : DNNExecBaseParams)
    (oracle : ExecOracle) (hexec : oracle.pf_exec_ok = true) :
    poolCount (ff_dnn_execute_model_native st p oracle).2 = poolCount st ∧
    (ff_dnn_execute_model_native st p oracle).2.model = st.model := by
  simp only [ff_dnn_execute_model_native]
  by_cases h1 : ff_check_exec_params p ≠ 0
  · rw [if_pos h1]; exact ⟨rfl, rfl⟩
  · rw [if_neg h1]
    by_cases h2 : oracle.task_alloc_ok = true
    · rw [if_neg (not_not_intro h2)]
      by_cases h3 : oracle.lltask_alloc_ok = true
      · rw [extract_ok _ _ _ h3]
        dsimp only
        rw [if_neg (not_not_intro rfl)]
        cases hpool : st.request_queue with
        | nil =>
          simp only [hpool]
          refine ⟨?_, ?_⟩
          · simp [poolCount, hpool]
          · trivial
        | cons r rest =>
          simp only [hpool]
          have key1 : ∀ (S : ModelState), S.lltask_queue ≠ [] →
              poolCount (execute_model_native S r oracle).2 = poolCount S + 1 :=
            fun S hq => (execute_adds_one S r oracle hq hexec).1
          have key2 : ∀ (S : ModelState), S.lltask_queue ≠ [] →
              (execute_model_native S r oracle).2.model = S.model :=
            fun S hq => (execute_adds_one S r oracle hq hexec).2
          refine ⟨?_, ?_⟩
          · rw [key1]
            · simp [poolCount, hpool]
              omega
            · simp
          · rw [key2]
            simp
      · unfold extract_lltask_from_task
        rw [if_pos h3]
        dsimp only
        rw [if_pos (by decide)]
        exact ⟨rfl, rfl⟩
    · rw [if_pos (by simp [h2])]
      exact ⟨rfl, rfl⟩

/-- A flush preserves the pool count and the model. -/
theorem flush_preserves (st : ModelState) (oracle : ExecOracle) :
    poolCount (ff_dnn_flush_native st oracle).2 = poolCount st ∧
    (ff_dnn_flush_native st oracle).2.model = st.model := by
  unfold ff_dnn_flush_native
  by_cases h0 : st.lltask_queue.length = 0
  · rw [if_pos h0]; exact ⟨rfl, rfl⟩
  · rw [if_neg h0]
    cases hpool : st.request_queue with
    | nil => exact ⟨rfl, rfl⟩
    | cons r rest =>
      obtain ⟨lt, lrest, hq'⟩ : ∃ lt lrest, st.lltask_queue = lt :: lrest := by
        cases h : st.lltask_queue with
        | nil => rw [h] at h0; exact absurd rfl h0
        | cons a l => exact ⟨a, l, rfl⟩
      simp only [fill_model_input_native, hq']
      by_cases h1 : (fill_model_input_core st.model (st.tasks.getD lt dummyTask)
          { r with lltask := some lt } oracle).1 = DNN_SUCCESS
      · simp only [h1, ne_eq, not_true_eq_false, if_false]
        by_cases h3 : oracle.async_start_ok
        · simp [h3, poolCount, hpool]
          omega
        · simp [h3, poolCount, hpool]
      · simp only [h1, ne_eq, not_false_eq_true, if_true]
        simp [poolCount, hpool]

/-- An asynchronous completion — successful or not — preserves the pool
count and the model. -/
theorem asyncComplete_preserves (st : ModelState) (i : Nat) (oracle : ExecOracle) :
    poolCount (asyncComplete st i oracle) = poolCount st ∧
    (asyncComplete st i oracle).model = st.model := by
  simp only [asyncComplete]
  split
  · next hlt =>
    simp only [native_start_inference]
    by_cases h1 : 0 < st.model.layers_num ∧ ¬ oracle.pf_exec_ok = true
    · rw [if_pos h1]
      dsimp only
      rw [if_pos (by decide : DNN_GENERIC_ERROR ≠ DNN_SUCCESS)]
      refine ⟨?_, rfl⟩
      simp only [poolCount, List.length_append, List.length_singleton]
      rw [List.length_eraseIdx, if_pos hlt]
      omega
    · rw [if_neg h1]
      dsimp only
      rw [if_neg (not_not_intro rfl)]
      obtain ⟨hc1, hc2, hc3⟩ := callback_counts
        { st with in_flight := st.in_flight.eraseIdx i } (st.in_flight.get ⟨i, hlt⟩)
      refine ⟨?_, ?_⟩
      · unfold poolCount
        rw [hc1, hc2]
        dsimp only
        rw [List.length_eraseIdx, if_pos hlt]
        omega
      · rw [hc3]
  · exact ⟨rfl, rfl⟩

/-- C1 amended: immediately after load, idle plus checked-out requests
equal nireq, and the equality is preserved by every sequence of
submissions whose layer executors succeed, flushes, and asynchronous
completions (failing completions, fill failures, extraction failures and
pool-exhausted submissions included).  A synchronous submission with a
failing layer executor instead pushes the failing request back twice
(see the counterexample). -/
theorem pool_cardinality_invariant (st : ModelState)
    (h : ReachableNoSyncExecFail st) :
    (poolCount st : Int) = st.model.nireq := by
  induction h with
  | loaded file oracle nireq0 cpu b st0 hload =>
    obtain ⟨dsz, haux⟩ := load_some_aux hload
    obtain ⟨-, -, -, hfl, hpos, hpool, -⟩ := loadModelAux_some_inv haux
    rw [poolCount, hpool, hfl]
    simp [Int.toNat_of_nonneg (le_of_lt hpos)]
  | submit st p oracle hr hexec ih =>
    obtain ⟨hc, hm⟩ := submit_preserves st p oracle hexec
    rw [hc, hm, ih]
  | flush st oracle hr ih =>
    obtain ⟨hc, hm⟩ := flush_preserves st oracle
    rw [hc, hm, ih]
  | complete st i oracle hr ih =>
    obtain ⟨hc, hm⟩ := asyncComplete_preserves st i oracle
    rw [hc, hm, ih]

/-- Witness for the amended C1: the invariant at the concrete freshly
loaded state. -/
theorem pool_cardinality_invariant_witness :
    (poolCount c1State : Int) = c1State.model.nireq :=
  pool_cardinality_invariant c1State
    (ReachableNoSyncExecFail.loaded c1File stubLoadOracle 1 0 false c1State (by decide))

/-- Synchronous submission against a drained lltask queue: the entry point
returns DNN_SUCCESS exactly when the submitted task's completion counter
reached its total, and the total is 1. -/
theorem submit_sync_done (st : ModelState) (p : DNNExecBaseParams)
    (oracle : ExecOracle) (hnb : p.nb_output = 1)
    (hta : oracle.task_alloc_ok = true) (hlla : oracle.lltask_alloc_ok = true)
    (hasync : st.model.async_option = false) (hllq : st.lltask_queue = []) :
    ((ff_dnn_execute_model_native st p oracle).2.tasks.getD st.tasks.length
        dummyTask).inference_todo = 1 ∧
    ((ff_dnn_execute_model_native st p oracle).1 = DNN_SUCCESS ↔
      ((ff_dnn_execute_model_native st p oracle).2.tasks.getD st.tasks.length
          dummyTask).inference_done
        = ((ff_dnn_execute_model_native st p oracle).2.tasks.getD st.tasks.length
            dummyTask).inference_todo) := by
  simp only [ff_dnn_execute_model_native]
  rw [if_neg (by simp [ff_check_exec_params, hnb])]
  rw [if_neg (not_not_intro hta)]
  rw [extract_ok _ _ _ hlla]
  dsimp only
  rw [if_neg (not_not_intro rfl)]
  rw [getD_append_self, set_append_last]
  dsimp only [ff_dnn_fill_task]
  rw [hasync, hnb]
  cases hpool : st.request_queue with
  | nil =>
    simp only [hpool]
    refine ⟨by rw [getD_append_self], ?_⟩
    rw [getD_append_self]
    simp [AVERROR_EINVAL, DNN_SUCCESS]
  | cons r rrest =>
    simp only [hpool]
    simp only [execute_model_native, fill_model_input_native, hllq, List.nil_append]
    rw [getD_append_self]
    split
    · next hfail =>
      refine ⟨by rw [getD_append_self], ?_⟩
      rw [getD_append_self]
      simp only [DNN_SUCCESS] at hfail ⊢
      simp [hfail]
    · next hok =>
      push_neg at hok
      dsimp only
      rw [if_neg (by simp)]
      simp only [native_start_inference]
      split
      · next hlay =>
        dsimp only
        rw [if_pos (by decide : DNN_GENERIC_ERROR ≠ DNN_SUCCESS)]
        refine ⟨by rw [getD_append_self], ?_⟩
        rw [getD_append_self]
        simp [DNN_GENERIC_ERROR, DNN_SUCCESS]
      · next hlay =>
        dsimp only
        rw [if_neg (not_not_intro rfl)]
        simp only [infer_completion_callback]
        rw [fill_core_lltask]
        dsimp only
        simp only [Option.getD_some]
        rw [getD_append_self]
        split
        · next hcb =>
          rw [getD_append_self]
          refine ⟨rfl, ?_⟩
          rw [if_neg (by decide : ¬ (0 : Nat) = 1)]
          simp [DNN_GENERIC_ERROR, DNN_SUCCESS]
        · next acc hcb =>
          simp only [set_append_last, getD_append_self]
          refine ⟨?_, ?_⟩
          · simp
          · simp [DNN_SUCCESS, DNN_GENERIC_ERROR]

/-- C6: a Task is reported done by the result-draining step exactly when
its completed-subtask counter equals its total; and for a synchronous
submission (against a drained Subtask queue, with the Task and Subtask
allocations succeeding) the entry point returns DNN_SUCCESS exactly when
the submitted Task's counters are equal after the completion callback,
the total being the single derived Subtask. -/
theorem task_done_iff_counters :
    (∀ (st : ModelState) (t : Nat) (rest : List Nat),
      st.task_queue = t :: rest →
      ((ff_dnn_get_result_native st).isSome ↔
        (st.tasks.getD t dummyTask).inference_done
          = (st.tasks.getD t dummyTask).inference_todo)) ∧
    (∀ (st : ModelState) (p : DNNExecBaseParams) (oracle : ExecOracle),
      p.nb_output = 1 → oracle.task_alloc_ok = true → oracle.lltask_alloc_ok = true →
      st.model.async_option = false → st.lltask_queue = [] →
      ((ff_dnn_execute_model_native st p oracle).2.tasks.getD st.tasks.length
          dummyTask).inference_todo = 1 ∧
      ((ff_dnn_execute_model_native st p oracle).1 = DNN_SUCCESS ↔
        ((ff_dnn_execute_model_native st p oracle).2.tasks.getD st.tasks.length
            dummyTask).inference_done
          = ((ff_dnn_execute_model_native st p oracle).2.tasks.getD st.tasks.length
              dummyTask).inference_todo)) := by
  constructor
  · intro st t rest hq
    simp only [ff_dnn_get_result_native, hq]
    split_ifs with hd
    · simp only [Option.isSome_some]
      exact iff_of_true trivial hd
    · simp only [Option.isSome_none]
      exact iff_of_false (by simp) hd
  · intro st p oracle hnb hta hlla hasync hllq
    exact submit_sync_done st p oracle hnb hta hlla hasync hllq

/-- Witness for C6: the concrete successful synchronous run on the loaded
one-request model. -/
theorem task_done_iff_counters_witness :
    (c4State.task_queue = 0 :: [] ∧
      ((ff_dnn_get_result_native c4State).isSome ↔
        (c4State.tasks.getD 0 dummyTask).inference_done
          = (c4State.tasks.getD 0 dummyTask).inference_todo)) ∧
    (((ff_dnn_execute_model_native c1State c1Params allOkOracle).2.tasks.getD
        c1State.tasks.length dummyTask).inference_todo = 1 ∧
      ((ff_dnn_execute_model_native c1State c1Params allOkOracle).1 = DNN_SUCCESS ↔
        ((ff_dnn_execute_model_native c1State c1Params allOkOracle).2.tasks.getD
            c1State.tasks.length dummyTask).inference_done
          = ((ff_dnn_execute_model_native c1State c1Params allOkOracle).2.tasks.getD
              c1State.tasks.length dummyTask).inference_todo)) :=
  ⟨⟨rfl, task_done_iff_counters.1 c4State 0 [] rfl⟩,
   task_done_iff_counters.2 c1State c1Params allOkOracle rfl rfl rfl rfl rfl⟩

end DnnNative
